import Mathlib

/-!
Verification of the restaurant-platform sync service.

Shallow embedding of the Python sources under
`src/restaurant_sync_service/`:

* `models/menu_models.py` and `models/sync_models.py` — data model
  (`MenuItem`, `Category`, `SyncStatus`, `SyncError`, `SyncOperation`)
  together with their pydantic field validation and their
  DynamoDB-item (de)serialization;
* `services/sync_service.py` — the sync orchestrator
  (`sync_to_platform`, `sync_to_multiple_platforms`);
* `services/error_service.py` — the error recorder
  (`record_sync_error`, `increment_retry_count`, snapshot serialization);
* `repositories/sync_repositories.py` — the store boundary, modelled as
  explicit environments (write outcomes) and traces (values written).

Conventions of the embedding:

* An `async` Python method becomes a pure Lean function from an explicit
  environment (the results the external collaborators would return) to a
  result paired with a trace of the observable effects (publish calls,
  sleeps, status writes).  Within one `sync_to_platform` call the steps
  are strictly sequential in the source, so this is a faithful
  reduction.
* Python `None`-returning fallible calls become `Option`; `bool`-status
  store writes become `Bool` drawn from the environment.
* `datetime` instants are modelled as an abstract `Nat`.  The stdlib
  pair `isoformat` / `fromisoformat` is modelled by a concrete injective
  text codec with a proved left inverse, mirroring the stdlib contract
  `datetime.fromisoformat(d.isoformat()) == d`; the exact character
  grammar of ISO-8601 is outside the repository and not load-bearing.
* A DynamoDB item (`dict[str, Any]`) with a fixed key set becomes a Lean
  structure whose optional keys are `Option` fields: a key absent from
  the dict is the field being `none`.
-/

namespace RestaurantSync

/-- Instants of `datetime` (with UTC timezone), modelled abstractly. -/
abbrev DateTime := Nat

/-- Inverse of `Nat.digitChar` on the digits `0`–`9`; `none` on any
character that is not a decimal digit. -/
def charDigit? (c : Char) : Option Nat :=
  if c = '0' then some 0
  else if c = '1' then some 1
  else if c = '2' then some 2
  else if c = '3' then some 3
  else if c = '4' then some 4
  else if c = '5' then some 5
  else if c = '6' then some 6
  else if c = '7' then some 7
  else if c = '8' then some 8
  else if c = '9' then some 9
  else none

/-- Model of Python `datetime.isoformat`: an injective rendering of the
instant as a string of decimal digits (most significant first). -/
def isoformat (t : DateTime) : String :=
  String.mk (if t = 0 then ['0'] else ((Nat.digits 10 t).reverse.map Nat.digitChar))

/-- Parses a list of decimal-digit characters, failing on the first
character that is not a digit. -/
def parseDigits : List Char → Option (List Nat)
  | [] => some []
  | c :: cs =>
    match charDigit? c, parseDigits cs with
    | some d, some ds => some (d :: ds)
    | _, _ => none

/-- Model of Python `datetime.fromisoformat`: parses the rendering back,
failing (Python: raising `ValueError`) on a malformed string. -/
def fromisoformat (s : String) : Option DateTime :=
  if s.data.isEmpty then none
  else (parseDigits s.data).map (fun ds => Nat.ofDigits 10 ds.reverse)

theorem charDigit?_digitChar : ∀ d : Nat, d < 10 → charDigit? (Nat.digitChar d) = some d := by
  decide

theorem parseDigits_map_digitChar (l : List Nat) (hl : ∀ d ∈ l, d < 10) :
    parseDigits (l.map Nat.digitChar) = some l := by
  induction l with
  | nil => rfl
  | cons d l ih =>
    have hd : d < 10 := hl d (List.mem_cons_self d l)
    have hrest : ∀ x ∈ l, x < 10 := fun x hx => hl x (List.mem_cons_of_mem d hx)
    simp [parseDigits, charDigit?_digitChar d hd, ih hrest]

/-- The modelled `fromisoformat` is a left inverse of the modelled
`isoformat`, as Python's stdlib guarantees for real ISO-8601 strings. -/
theorem fromisoformat_isoformat (t : DateTime) : fromisoformat (isoformat t) = some t := by
  by_cases h0 : t = 0
  · subst h0; decide
  · have hne : Nat.digits 10 t ≠ [] := Nat.digits_ne_nil_iff_ne_zero.mpr h0
    have hlt : ∀ d ∈ (Nat.digits 10 t).reverse, d < 10 := by
      intro d hd
      exact Nat.digits_lt_base (by norm_num) (List.mem_reverse.mp hd)
    have hmap := parseDigits_map_digitChar ((Nat.digits 10 t).reverse) hlt
    have hnonempty : ((Nat.digits 10 t).reverse.map Nat.digitChar).isEmpty = false := by
      simp [List.isEmpty_iff, hne]
    have hdata : (isoformat t).data = (Nat.digits 10 t).reverse.map Nat.digitChar := by
      simp [isoformat, h0]
    simp only [fromisoformat, hdata, hnonempty, Bool.false_eq_true, if_false, hmap,
      Option.map_some', List.reverse_reverse, Nat.ofDigits_digits]

/-- Python `decimal.Decimal`, modelled as a scaled integer: the value is
`unscaled / 10 ^ scale`. -/
structure Decimal where
  unscaled : Int
  scale : Nat
deriving DecidableEq, Repr

/-- Model of Python `str` on a `Decimal`: the plain decimal rendering
(sign, digits, and a point when the scale is positive). -/
def Decimal.str (d : Decimal) : String :=
  let sign := if d.unscaled < 0 then "-" else ""
  let digits := toString d.unscaled.natAbs
  if d.scale = 0 then sign ++ digits
  else
    let padded :=
      if digits.length ≤ d.scale then
        String.mk (List.replicate (d.scale + 1 - digits.length) '0') ++ digits
      else digits
    sign ++ padded.take (padded.length - d.scale) ++ "." ++
      String.mk (padded.data.drop (padded.length - d.scale))

/-- `menu_models.MenuItem`: a menu item snapshot fetched from the menu
service (pydantic model; `price` is a `Decimal`, `description` and
`image_url` optional). -/
structure MenuItem where
  id : String
  restaurant_id : String
  name : String
  description : Option String := none
  price : Decimal
  category_id : String
  available : Bool := true
  image_url : Option String := none
deriving DecidableEq, Repr

/-- `menu_models.Category`: a menu category fetched from the menu
service. -/
structure Category where
  id : String
  restaurant_id : String
  name : String
  description : Option String := none
  sort_order : Int := 0
deriving DecidableEq, Repr

/-- `sync_models.SyncStatusEnum`: the four sync status values. -/
inductive SyncStatusEnum where
  | pending
  | in_progress
  | completed
  | failed
deriving DecidableEq, Repr

/-- The `.value` of a `SyncStatusEnum` member: its lower-cased string. -/
def SyncStatusEnum.value : SyncStatusEnum → String
  | .pending => "pending"
  | .in_progress => "in_progress"
  | .completed => "completed"
  | .failed => "failed"

/-- The `SyncStatusEnum(string)` constructor: returns the member whose
value matches, failing (Python: raising `ValueError`) otherwise. -/
def SyncStatusEnum.ofValue (s : String) : Option SyncStatusEnum :=
  if s = "pending" then some .pending
  else if s = "in_progress" then some .in_progress
  else if s = "completed" then some .completed
  else if s = "failed" then some .failed
  else none

theorem SyncStatusEnum.ofValue_value (e : SyncStatusEnum) : ofValue e.value = some e := by
  cases e <;> rfl

/-- A JSON-compatible value, as produced by the error recorder's menu
snapshot serialization (`dict` values of the snapshot records). -/
inductive JValue where
  | null
  | str (s : String)
  | int (n : Int)
  | bool (b : Bool)
deriving DecidableEq, Repr

/-- The record built by `ErrorService._serialize_menu_item`: one menu
item as a plain JSON-compatible dict. -/
structure SerializedMenuItem where
  id : JValue
  restaurant_id : JValue
  name : JValue
  description : JValue
  price : JValue
  category_id : JValue
  available : JValue
  image_url : JValue
deriving DecidableEq, Repr

/-- The record built by `ErrorService._serialize_category`: one category
as a plain JSON-compatible dict. -/
structure SerializedCategory where
  id : JValue
  restaurant_id : JValue
  name : JValue
  description : JValue
  sort_order : JValue
deriving DecidableEq, Repr

/-- The dict built by `ErrorService._create_menu_snapshot`: serialized
items and categories. -/
structure MenuSnapshot where
  items : List SerializedMenuItem
  categories : List SerializedCategory
deriving DecidableEq, Repr

/-- `sync_models.SyncStatus`: sync status for one (restaurant, platform)
pair (pydantic model). -/
structure SyncStatus where
  restaurant_id : String
  platform : String
  status : SyncStatusEnum
  last_sync_time : Option DateTime := none
  item_count : Option Int := none
  external_menu_id : Option String := none
deriving DecidableEq, Repr

/-- The pydantic validation of `SyncStatus` construction: `item_count`
must be non-negative when present (`Field ge=0` plus the
`validate_item_count` validator). -/
def SyncStatus.validB (s : SyncStatus) : Bool :=
  s.item_count.all (fun n => decide (0 ≤ n))

/-- The validating constructor `SyncStatus(**data)`: pydantic raises
`ValidationError` (modelled as `none`) when validation fails. -/
def SyncStatus.mk? (restaurant_id platform : String) (status : SyncStatusEnum)
    (last_sync_time : Option DateTime) (item_count : Option Int)
    (external_menu_id : Option String) : Option SyncStatus :=
  let s : SyncStatus :=
    { restaurant_id := restaurant_id, platform := platform, status := status,
      last_sync_time := last_sync_time, item_count := item_count,
      external_menu_id := external_menu_id }
  if s.validB then some s else none

/-- The DynamoDB item written for a `SyncStatus`: a dict whose optional
keys (`Option` fields) are present exactly when set; `status` is the
enum's lower-cased string value and `last_sync_time` is the ISO-8601
rendering. -/
structure SyncStatusItem where
  restaurant_id : String
  platform : String
  status : String
  last_sync_time : Option String := none
  item_count : Option Int := none
  external_menu_id : Option String := none
deriving DecidableEq, Repr

/-- `SyncStatus.to_dynamodb_item`. -/
def SyncStatus.to_dynamodb_item (s : SyncStatus) : SyncStatusItem :=
  { restaurant_id := s.restaurant_id
    platform := s.platform
    status := s.status.value
    last_sync_time := s.last_sync_time.map isoformat
    item_count := s.item_count
    external_menu_id := s.external_menu_id }

/-- `SyncStatus.from_dynamodb_item`: parses the enum value and the
timestamp, then constructs (and validates) the model; any failure is a
raised error in Python, modelled as `none`. -/
def SyncStatus.from_dynamodb_item (item : SyncStatusItem) : Option SyncStatus := do
  let status ← SyncStatusEnum.ofValue item.status
  let last_sync_time ←
    match item.last_sync_time with
    | none => some none
    | some s => (fromisoformat s).map some
  SyncStatus.mk? item.restaurant_id item.platform status last_sync_time
    item.item_count item.external_menu_id

/-- `sync_models.SyncError`: one recorded sync failure (pydantic
model). -/
structure SyncError where
  error_id : String
  created_at : DateTime
  restaurant_id : String
  platform : String
  error_details : String
  menu_snapshot : Option MenuSnapshot := none
  retry_count : Int := 0
deriving DecidableEq, Repr

/-- The pydantic validation of `SyncError` construction: `retry_count`
must be non-negative (`Field ge=0` plus `validate_retry_count`). -/
def SyncError.validB (e : SyncError) : Bool :=
  decide (0 ≤ e.retry_count)

/-- The validating constructor `SyncError(**data)`. -/
def SyncError.mk? (error_id : String) (created_at : DateTime)
    (restaurant_id platform error_details : String)
    (menu_snapshot : Option MenuSnapshot) (retry_count : Int) : Option SyncError :=
  let e : SyncError :=
    { error_id := error_id, created_at := created_at, restaurant_id := restaurant_id,
      platform := platform, error_details := error_details,
      menu_snapshot := menu_snapshot, retry_count := retry_count }
  if e.validB then some e else none

/-- The DynamoDB item written for a `SyncError`.  `retry_count` is
always written but read back with `item.get("retry_count", 0)`, so the
field is optional in the item representation; `menu_snapshot` is a key
present only when the model carries one. -/
structure SyncErrorItem where
  error_id : String
  created_at : String
  restaurant_id : String
  platform : String
  error_details : String
  retry_count : Option Int := none
  menu_snapshot : Option MenuSnapshot := none
deriving DecidableEq, Repr

/-- `SyncError.to_dynamodb_item`. -/
def SyncError.to_dynamodb_item (e : SyncError) : SyncErrorItem :=
  { error_id := e.error_id
    created_at := isoformat e.created_at
    restaurant_id := e.restaurant_id
    platform := e.platform
    error_details := e.error_details
    retry_count := some e.retry_count
    menu_snapshot := e.menu_snapshot }

/-- `SyncError.from_dynamodb_item`. -/
def SyncError.from_dynamodb_item (item : SyncErrorItem) : Option SyncError := do
  let created_at ← fromisoformat item.created_at
  SyncError.mk? item.error_id created_at item.restaurant_id item.platform
    item.error_details item.menu_snapshot (item.retry_count.getD 0)

/-- `sync_models.SyncOperation`: progress record for an in-flight sync
(pydantic model). -/
structure SyncOperation where
  operation_id : String
  restaurant_id : String
  platform : String
  status : SyncStatusEnum
  total_items : Int
  items_processed : Int := 0
deriving DecidableEq, Repr

/-- The pydantic validation of `SyncOperation` construction:
`total_items` positive (`Field gt=0` plus `validate_total_items`) and
`items_processed` non-negative (`Field ge=0` plus
`validate_items_processed`).  No validator relates the two fields. -/
def SyncOperation.validB (op : SyncOperation) : Bool :=
  decide (0 < op.total_items) && decide (0 ≤ op.items_processed)

/-- The validating constructor `SyncOperation(**data)`. -/
def SyncOperation.mk? (operation_id restaurant_id platform : String)
    (status : SyncStatusEnum) (total_items items_processed : Int) : Option SyncOperation :=
  let op : SyncOperation :=
    { operation_id := operation_id, restaurant_id := restaurant_id, platform := platform,
      status := status, total_items := total_items, items_processed := items_processed }
  if op.validB then some op else none

/-- `SyncOperation.progress_percentage`: `items_processed / total_items
* 100`, and `0` when `total_items` is `0` (defensive branch).  The
Python property computes in floating point; the embedding uses exact
rationals for the same formula. -/
def SyncOperation.progress_percentage (op : SyncOperation) : ℚ :=
  if op.total_items = 0 then 0
  else ((op.items_processed : ℚ) / (op.total_items : ℚ)) * 100

/-- The DynamoDB item written for a `SyncOperation`.  All fields are
always written; `items_processed` is read back with
`item.get("items_processed", 0)`, so it is optional in the item
representation. -/
structure SyncOperationItem where
  operation_id : String
  restaurant_id : String
  platform : String
  status : String
  total_items : Int
  items_processed : Option Int := none
deriving DecidableEq, Repr

/-- `SyncOperation.to_dynamodb_item`. -/
def SyncOperation.to_dynamodb_item (op : SyncOperation) : SyncOperationItem :=
  { operation_id := op.operation_id
    restaurant_id := op.restaurant_id
    platform := op.platform
    status := op.status.value
    total_items := op.total_items
    items_processed := some op.items_processed }

/-- `SyncOperation.from_dynamodb_item`. -/
def SyncOperation.from_dynamodb_item (item : SyncOperationItem) : Option SyncOperation := do
  let status ← SyncStatusEnum.ofValue item.status
  SyncOperation.mk? item.operation_id item.restaurant_id item.platform status
    item.total_items (item.items_processed.getD 0)

/-- `sync_service.SyncResult`: the in-memory, per-platform outcome of
one orchestration pass (a dataclass, never persisted). -/
structure SyncResult where
  success : Bool
  platform : String
  item_count : Nat
  error_message : Option String := none
deriving DecidableEq, Repr

/-- A platform adapter's observable behaviour during one sync pass
(`base_adapter.PlatformAdapter`): `format_menu` is a function of the
fetched data returning `none` on failure; `publish_menu` is given the
0-based index of the invocation within the pass (the network call may
answer differently on each attempt), the restaurant id and the
formatted menu, and returns `false` on failure. -/
structure AdapterSpec (F : Type) where
  format_menu : List MenuItem → List Category → Option F
  publish_menu : Nat → String → F → Bool

/-- The collaborator responses one `sync_to_platform` call observes:
the menu fetch result (`menu_service_client.get_menu_data`, `none` on
failure), the current time `datetime.now(UTC)` at the single status
write the call performs, and the Status Store's outcome for that write
(`SyncStatusRepository.save_status` returns `False` on `ClientError`
and never raises). -/
structure SyncEnv (F : Type) where
  menu_data : Option (List MenuItem × List Category)
  now : DateTime
  save_ok : Bool

/-- The observable effects of one `sync_to_platform` call: how many
times the adapter's `format_menu` and `publish_menu` were invoked, the
`asyncio.sleep` durations awaited, and every `SyncStatus` passed to
`save_status` paired with the store's outcome (which the service
ignores). -/
structure SyncTrace where
  format_calls : Nat
  publish_calls : Nat
  slept : List Nat
  writes : List (SyncStatus × Bool)
deriving DecidableEq, Repr

/-- `SyncService._save_success_status`: builds a `completed` status with
`last_sync_time = datetime.now(UTC)` and the given item count, and
passes it to `save_status`. -/
def save_success_status {F : Type} (env : SyncEnv F) (restaurant_id platform : String)
    (item_count : Nat) : SyncStatus × Bool :=
  ({ restaurant_id := restaurant_id
     platform := platform
     status := SyncStatusEnum.completed
     last_sync_time := some env.now
     item_count := some (item_count : Int)
     external_menu_id := none }, env.save_ok)

/-- `SyncService._save_failed_status`: builds a `failed` status with
`last_sync_time = datetime.now(UTC)` and the given item count, and
passes it to `save_status`. -/
def save_failed_status {F : Type} (env : SyncEnv F) (restaurant_id platform : String)
    (item_count : Nat) : SyncStatus × Bool :=
  ({ restaurant_id := restaurant_id
     platform := platform
     status := SyncStatusEnum.failed
     last_sync_time := some env.now
     item_count := some (item_count : Int)
     external_menu_id := none }, env.save_ok)

/-- `SyncService.sync_to_platform`: fetch, format, publish (with at most
one retry after a fixed delay when `retry` is set), then record the
outcome.  Steps are strictly sequential in the source, so the `async`
method is embedded as a pure function of the environment returning the
`SyncResult` and the trace of effects. -/
def sync_to_platform {F : Type} (retry_delay_seconds : Nat) (env : SyncEnv F)
    (restaurant_id platform : String) (adapter : AdapterSpec F) (retry : Bool) :
    SyncResult × SyncTrace :=
  match env.menu_data with
  | none =>
    let error_msg := "Failed to fetch menu data for restaurant " ++ restaurant_id
    ({ success := false, platform := platform, item_count := 0,
       error_message := some error_msg },
     { format_calls := 0, publish_calls := 0, slept := [],
       writes := [save_failed_status env restaurant_id platform 0] })
  | some (items, categories) =>
    match adapter.format_menu items categories with
    | none =>
      let error_msg := "Failed to format menu for platform " ++ platform
      ({ success := false, platform := platform, item_count := items.length,
         error_message := some error_msg },
       { format_calls := 1, publish_calls := 0, slept := [],
         writes := [save_failed_status env restaurant_id platform items.length] })
    | some formatted_menu =>
      let first := adapter.publish_menu 0 restaurant_id formatted_menu
      if first then
        ({ success := true, platform := platform, item_count := items.length,
           error_message := none },
         { format_calls := 1, publish_calls := 1, slept := [],
           writes := [save_success_status env restaurant_id platform items.length] })
      else if retry then
        let second := adapter.publish_menu 1 restaurant_id formatted_menu
        if second then
          ({ success := true, platform := platform, item_count := items.length,
             error_message := none },
           { format_calls := 1, publish_calls := 2, slept := [retry_delay_seconds],
             writes := [save_success_status env restaurant_id platform items.length] })
        else
          let error_msg := "Failed to publish menu to " ++ platform ++
            " after all retry attempts"
          ({ success := false, platform := platform, item_count := items.length,
             error_message := some error_msg },
           { format_calls := 1, publish_calls := 2, slept := [retry_delay_seconds],
             writes := [save_failed_status env restaurant_id platform items.length] })
      else
        let error_msg := "Failed to publish menu to " ++ platform ++
          " after all retry attempts"
        ({ success := false, platform := platform, item_count := items.length,
           error_message := some error_msg },
         { format_calls := 1, publish_calls := 1, slept := [],
           writes := [save_failed_status env restaurant_id platform items.length] })

/-- `SyncService.sync_to_multiple_platforms`: builds one
`sync_to_platform` coroutine per entry of the adapter dict (in
insertion order) and awaits them all with `asyncio.gather`, which
returns the results in task order once every task has completed.  The
coroutines share no mutable in-memory state; each task's collaborator
responses are its own environment `envf platform`, so the fan-out is
embedded as a map over the adapter list. -/
def sync_to_multiple_platforms {F : Type} (retry_delay_seconds : Nat)
    (envf : String → SyncEnv F) (restaurant_id : String)
    (platform_adapters : List (String × AdapterSpec F)) (retry : Bool) :
    List SyncResult :=
  (platform_adapters.map (fun pa =>
    sync_to_platform retry_delay_seconds (envf pa.1) restaurant_id pa.1 pa.2 retry)).map
    Prod.fst

/-- `ErrorService._serialize_menu_item`: each field as a JSON value;
`price` is `str(item.price)` (the decimal rendered as a string) and the
optional fields map Python `None` to JSON null. -/
def serialize_menu_item (item : MenuItem) : SerializedMenuItem :=
  { id := JValue.str item.id
    restaurant_id := JValue.str item.restaurant_id
    name := JValue.str item.name
    description := match item.description with | some d => JValue.str d | none => JValue.null
    price := JValue.str (Decimal.str item.price)
    category_id := JValue.str item.category_id
    available := JValue.bool item.available
    image_url := match item.image_url with | some u => JValue.str u | none => JValue.null }

/-- `ErrorService._serialize_category`. -/
def serialize_category (category : Category) : SerializedCategory :=
  { id := JValue.str category.id
    restaurant_id := JValue.str category.restaurant_id
    name := JValue.str category.name
    description :=
      match category.description with | some d => JValue.str d | none => JValue.null
    sort_order := JValue.int category.sort_order }

/-- `ErrorService._create_menu_snapshot`. -/
def create_menu_snapshot (items : List MenuItem) (categories : List Category) :
    MenuSnapshot :=
  { items := items.map serialize_menu_item
    categories := categories.map serialize_category }

/-- The Python character slice `s[:n]`. -/
def strTake (s : String) (n : Nat) : String :=
  String.mk (s.data.take n)

/-- The collaborator responses one `record_sync_error` call observes:
the hex string of the freshly generated `uuid.uuid4()`, the current
time, and the Error Store's outcome for the single `save_error` write
(`False` on `ClientError`, never raises). -/
structure ErrEnv where
  uuid_hex : String
  now : DateTime
  save_ok : Bool

/-- `ErrorService.record_sync_error`: generates `err_` plus the first
12 hex characters of a fresh uuid4, snapshots the menu only when both
collections are supplied, persists a new `SyncError` with
`retry_count = 0`, and returns the error id on a successful write and
`None` otherwise.  The outer `Option` is the exception level of the
embedding: `none` would be a raised error (pydantic validation), and
the payload pairs the returned value with the list of errors passed to
`save_error`. -/
def record_sync_error (env : ErrEnv) (restaurant_id platform error_details : String)
    (menu_items : Option (List MenuItem)) (menu_categories : Option (List Category)) :
    Option (Option String × List SyncError) := do
  let error_id := "err_" ++ strTake env.uuid_hex 12
  let menu_snapshot :=
    match menu_items, menu_categories with
    | some items, some cats => some (create_menu_snapshot items cats)
    | _, _ => none
  let error ← SyncError.mk? error_id env.now restaurant_id platform error_details
    menu_snapshot 0
  some ((if env.save_ok then some error_id else none), [error])

/-- A Python argument value, for modelling dynamic call arity at the
service→repository boundary. -/
inductive PyVal where
  | str (s : String)
  | dt (d : DateTime)
  | int (n : Int)
deriving DecidableEq, Repr

/-- A Python exception distinguished by the embedding. -/
inductive PyEx where
  | typeError
deriving DecidableEq, Repr

/-- The Error Store: its (already parsed) `SyncError` rows keyed by
`(error_id, created_at)`, and whether store calls currently succeed
(`ok = false` models `ClientError`, which every repository method
catches). -/
structure ErrorStore where
  errors : List SyncError
  ok : Bool

/-- `SyncErrorRepository.get_error(error_id, created_at)` invoked with a
Python argument list: a call that does not supply exactly the two
parameters of the signature raises `TypeError`.  On `ClientError` the
method returns `None`. -/
def get_error_call (store : ErrorStore) (args : List PyVal) :
    Except PyEx (Option SyncError) :=
  match args with
  | [PyVal.str error_id, PyVal.dt created_at] =>
    if store.ok then
      Except.ok (store.errors.find? (fun e =>
        e.error_id == error_id && e.created_at == created_at))
    else Except.ok none
  | _ => Except.error PyEx.typeError

/-- `SyncErrorRepository.update_retry_count(error_id, created_at,
retry_count)` invoked with a Python argument list: a call that does not
supply exactly the three parameters of the signature raises
`TypeError`.  On `ClientError` the method returns `False`. -/
def update_retry_count_call (store : ErrorStore) (args : List PyVal) :
    Except PyEx (ErrorStore × Bool) :=
  match args with
  | [PyVal.str error_id, PyVal.dt created_at, PyVal.int retry_count] =>
    if store.ok then
      Except.ok
        ({ store with errors := store.errors.map (fun e =>
            if e.error_id == error_id && e.created_at == created_at then
              { e with retry_count := retry_count }
            else e) }, true)
    else Except.ok (store, false)
  | _ => Except.error PyEx.typeError

/-- `ErrorService.increment_retry_count(error_id)` as written in the
source: it invokes `self.error_repository.get_error(error_id)` with a
single argument, and — were that to return an error — would invoke
`update_retry_count(error_id, new_retry_count)` with two arguments,
against repository signatures requiring two and three parameters
respectively. -/
def increment_retry_count (store : ErrorStore) (error_id : String) :
    Except PyEx (ErrorStore × Bool) := do
  let error? ← get_error_call store [PyVal.str error_id]
  match error? with
  | none => Except.ok (store, false)
  | some error =>
    update_retry_count_call store [PyVal.str error_id, PyVal.int (error.retry_count + 1)]

/-- The Operation Store: its `SyncOperation` items keyed by
`operation_id`, and whether store calls currently succeed. -/
structure OperationStore where
  items : List SyncOperationItem
  ok : Bool

/-- `SyncOperationRepository.update_progress`: a raw `update_item` that
sets `items_processed` on the keyed item to the given value, with no
validation of the value; returns `False` only on `ClientError`. -/
def update_progress (store : OperationStore) (operation_id : String)
    (items_processed : Int) : OperationStore × Bool :=
  if store.ok then
    ({ store with items := store.items.map (fun it =>
        if it.operation_id == operation_id then
          { it with items_processed := some items_processed }
        else it) }, true)
  else (store, false)

theorem status_roundtrip (s : SyncStatus) (h : s.validB = true) :
    SyncStatus.from_dynamodb_item s.to_dynamodb_item = some s := by
  obtain ⟨rid, p, st, lst, ic, emi⟩ := s
  simp only [SyncStatus.validB] at h
  cases lst with
  | none =>
    simp [SyncStatus.to_dynamodb_item, SyncStatus.from_dynamodb_item,
      SyncStatusEnum.ofValue_value, SyncStatus.mk?, SyncStatus.validB, h]
  | some t =>
    simp [SyncStatus.to_dynamodb_item, SyncStatus.from_dynamodb_item,
      SyncStatusEnum.ofValue_value, fromisoformat_isoformat, SyncStatus.mk?,
      SyncStatus.validB, h]

theorem error_roundtrip (e : SyncError) (h : e.validB = true) :
    SyncError.from_dynamodb_item e.to_dynamodb_item = some e := by
  obtain ⟨eid, ca, rid, p, det, snap, rc⟩ := e
  simp only [SyncError.validB] at h
  simp [SyncError.to_dynamodb_item, SyncError.from_dynamodb_item,
    fromisoformat_isoformat, SyncError.mk?, SyncError.validB, h]

theorem operation_roundtrip (op : SyncOperation) (h : op.validB = true) :
    SyncOperation.from_dynamodb_item op.to_dynamodb_item = some op := by
  obtain ⟨oid, rid, p, st, ti, ip⟩ := op
  simp only [SyncOperation.validB] at h
  simp [SyncOperation.to_dynamodb_item, SyncOperation.from_dynamodb_item,
    SyncStatusEnum.ofValue_value, SyncOperation.mk?, SyncOperation.validB, h]

/-- C9: every valid `SyncStatus`, `SyncError` and `SyncOperation`
serializes to its store-item representation and parses back to the
original value with no field loss; the enum is stored as its
lower-cased string value, timestamps as their ISO-8601 rendering, and
absent optional fields are omitted from the item (the `Option` field of
the item stays `none`). -/
theorem dynamodb_roundtrip :
    (∀ s : SyncStatus, s.validB = true →
      SyncStatus.from_dynamodb_item s.to_dynamodb_item = some s ∧
      s.to_dynamodb_item.status = s.status.value ∧
      s.to_dynamodb_item.last_sync_time = s.last_sync_time.map isoformat) ∧
    (∀ e : SyncError, e.validB = true →
      SyncError.from_dynamodb_item e.to_dynamodb_item = some e ∧
      e.to_dynamodb_item.created_at = isoformat e.created_at ∧
      e.to_dynamodb_item.menu_snapshot = e.menu_snapshot) ∧
    (∀ op : SyncOperation, op.validB = true →
      SyncOperation.from_dynamodb_item op.to_dynamodb_item = some op ∧
      op.to_dynamodb_item.status = op.status.value) :=
  ⟨fun s h => ⟨status_roundtrip s h, rfl, rfl⟩,
   fun e h => ⟨error_roundtrip e h, rfl, rfl⟩,
   fun op h => ⟨operation_roundtrip op h, rfl⟩⟩

/-- Concrete `SyncStatus` used to witness the round trip. -/
def statusW : SyncStatus :=
  { restaurant_id := "rest_1", platform := "doordash",
    status := SyncStatusEnum.completed, last_sync_time := some 5,
    item_count := some 2, external_menu_id := some "ext_1" }

/-- Concrete `SyncError` used to witness the round trip. -/
def errorW : SyncError :=
  { error_id := "err_1", created_at := 9, restaurant_id := "rest_1",
    platform := "doordash", error_details := "publish failed",
    menu_snapshot := some { items := [], categories := [] }, retry_count := 1 }

/-- Concrete `SyncOperation` used to witness the round trip. -/
def operationW : SyncOperation :=
  { operation_id := "op_1", restaurant_id := "rest_1", platform := "doordash",
    status := SyncStatusEnum.in_progress, total_items := 10, items_processed := 4 }

/-- C9 witness: the round trip evaluated on concrete valid values of
each of the three models. -/
theorem dynamodb_roundtrip_witness :
    (statusW.validB = true ∧
      SyncStatus.from_dynamodb_item statusW.to_dynamodb_item = some statusW) ∧
    (errorW.validB = true ∧
      SyncError.from_dynamodb_item errorW.to_dynamodb_item = some errorW) ∧
    (operationW.validB = true ∧
      SyncOperation.from_dynamodb_item operationW.to_dynamodb_item = some operationW) :=
  ⟨⟨by decide, (dynamodb_roundtrip.1 statusW (by decide)).1⟩,
   ⟨by decide, (dynamodb_roundtrip.2.1 errorW (by decide)).1⟩,
   ⟨by decide, (dynamodb_roundtrip.2.2 operationW (by decide)).1⟩⟩

/-- Constructible `SyncOperation` whose processed count exceeds its
total: pydantic accepts it because no validator relates the two
fields. -/
def operationCx : SyncOperation :=
  { operation_id := "op_1", restaurant_id := "rest_1", platform := "doordash",
    status := SyncStatusEnum.pending, total_items := 1, items_processed := 5 }

/-- C7 counterexample: the validating constructor accepts
`total_items = 1, items_processed = 5`, so a constructible
`SyncOperation` need not satisfy `items_processed ≤ total_items`. -/
theorem sync_operation_bound_counterexample :
    SyncOperation.mk? "op_1" "rest_1" "doordash" SyncStatusEnum.pending 1 5 =
      some operationCx ∧
    ¬operationCx.items_processed ≤ operationCx.total_items :=
  ⟨rfl, by decide⟩

/-- C7 (amended): every constructible `SyncOperation` satisfies
`total_items > 0` and `items_processed ≥ 0` (but `items_processed ≤
total_items` is not enforced), and its `progress_percentage` equals
`items_processed / total_items * 100` (the defensive `total_items = 0`
branch, which yields `0`, is unreachable for constructible values);
`update_progress` stores exactly the supplied `items_processed` with no
revalidation. -/
theorem sync_operation_construction_invariants :
    (∀ (oid rid p : String) (st : SyncStatusEnum) (ti ip : Int) (op : SyncOperation),
      SyncOperation.mk? oid rid p st ti ip = some op →
      0 < op.total_items ∧ 0 ≤ op.items_processed ∧
        op.progress_percentage = (op.items_processed : ℚ) / (op.total_items : ℚ) * 100) ∧
    (∀ op : SyncOperation, op.total_items = 0 → op.progress_percentage = 0) ∧
    (∀ (store : OperationStore) (oid : String) (n : Int),
      store.ok = true →
      ∀ it ∈ (update_progress store oid n).1.items, it.operation_id = oid →
        it.items_processed = some n) := by
  refine ⟨?_, ?_, ?_⟩
  · intro oid rid p st ti ip op hmk
    simp only [SyncOperation.mk?] at hmk
    split at hmk
    · next hvalid =>
      obtain rfl : _ = op := Option.some.inj hmk
      simp only [SyncOperation.validB, Bool.and_eq_true, decide_eq_true_eq] at hvalid
      refine ⟨hvalid.1, hvalid.2, ?_⟩
      have hne : (ti : Int) ≠ 0 := ne_of_gt hvalid.1
      simp [SyncOperation.progress_percentage, hne]
    · exact absurd hmk (by simp)
  · intro op h
    simp [SyncOperation.progress_percentage, h]
  · intro store oid n hok it hmem hoid
    simp only [update_progress, hok, if_true] at hmem
    obtain ⟨orig, horig, heq⟩ := List.mem_map.mp hmem
    by_cases hb : orig.operation_id == oid
    · simp only [hb, if_true] at heq
      subst heq
      rfl
    · simp only [hb, if_false] at heq
      subst heq
      exact absurd hoid (by simpa using hb)

/-- C7 witness: the construction invariants evaluated at a concrete
constructible operation and a concrete progress update. -/
theorem sync_operation_construction_invariants_witness :
    SyncOperation.mk? "op_1" "rest_1" "doordash" SyncStatusEnum.in_progress 10 4 =
      some operationW ∧
    (0 < operationW.total_items ∧ 0 ≤ operationW.items_processed ∧
      operationW.progress_percentage =
        (operationW.items_processed : ℚ) / (operationW.total_items : ℚ) * 100) ∧
    ({ operation_id := "op_1", restaurant_id := "rest_1", platform := "doordash",
       status := "in_progress", total_items := 10, items_processed := some 7 } :
      SyncOperationItem).items_processed = some 7 :=
  ⟨rfl,
   sync_operation_construction_invariants.1 "op_1" "rest_1" "doordash"
      SyncStatusEnum.in_progress 10 4 operationW rfl,
   sync_operation_construction_invariants.2.2
      { items := [operationW.to_dynamodb_item], ok := true } "op_1" 7 rfl
      { operation_id := "op_1", restaurant_id := "rest_1", platform := "doordash",
        status := "in_progress", total_items := 10, items_processed := some 7 }
      (by decide) rfl⟩

/-- Concrete menu item (price `12.99`) used by the orchestration
witnesses. -/
def itemW : MenuItem :=
  { id := "item_1", restaurant_id := "rest_1", name := "Burger",
    description := none, price := { unscaled := 1299, scale := 2 },
    category_id := "cat_1", available := true, image_url := none }

/-- Concrete category used by the orchestration witnesses. -/
def catW : Category :=
  { id := "cat_1", restaurant_id := "rest_1", name := "Mains",
    description := none, sort_order := 0 }

/-- Adapter whose formatting and publishing always succeed. -/
def adapterOkW : AdapterSpec Unit :=
  { format_menu := fun _ _ => some (), publish_menu := fun _ _ _ => true }

/-- Adapter whose publishing always fails. -/
def adapterFailW : AdapterSpec Unit :=
  { format_menu := fun _ _ => some (), publish_menu := fun _ _ _ => false }

/-- Adapter whose formatting fails. -/
def adapterNoFormatW : AdapterSpec Unit :=
  { format_menu := fun _ _ => none, publish_menu := fun _ _ _ => true }

/-- Environment in which the menu fetch succeeds with one item and one
category, and the status write succeeds. -/
def envW : SyncEnv Unit :=
  { menu_data := some ([itemW], [catW]), now := 7, save_ok := true }

/-- Environment in which the menu fetch fails. -/
def envNoneW : SyncEnv Unit :=
  { menu_data := none, now := 7, save_ok := true }

/-- C1: when the fetch and the format succeed and publish eventually
returns true (first attempt, or the retried attempt with `retry` set),
`sync_to_platform` persists exactly one `completed` `SyncStatus` whose
`last_sync_time` is the current time and whose `item_count` is the
number of fetched items, and returns a successful `SyncResult` with
that same item count. -/
theorem sync_success_persists_completed_status {F : Type} (delay : Nat) (env : SyncEnv F)
    (rid p : String) (adapter : AdapterSpec F) (retry : Bool)
    (items : List MenuItem) (cats : List Category) (f : F)
    (hmenu : env.menu_data = some (items, cats))
    (hformat : adapter.format_menu items cats = some f)
    (hpub : adapter.publish_menu 0 rid f = true ∨
      (retry = true ∧ adapter.publish_menu 1 rid f = true)) :
    (sync_to_platform delay env rid p adapter retry).1 =
      { success := true, platform := p, item_count := items.length,
        error_message := none } ∧
    (sync_to_platform delay env rid p adapter retry).2.writes =
      [({ restaurant_id := rid, platform := p, status := SyncStatusEnum.completed,
          last_sync_time := some env.now, item_count := some (items.length : Int),
          external_menu_id := none }, env.save_ok)] := by
  by_cases h1 : adapter.publish_menu 0 rid f = true
  · constructor <;> simp [sync_to_platform, hmenu, hformat, h1, save_success_status]
  · rcases hpub with h | ⟨hr, h2⟩
    · exact absurd h h1
    · subst hr
      simp only [Bool.not_eq_true] at h1
      constructor <;>
        simp [sync_to_platform, hmenu, hformat, h1, h2, save_success_status]

/-- C1 witness: a successful sync of one item at time 7. -/
theorem sync_success_persists_completed_status_witness :
    envW.menu_data = some ([itemW], [catW]) ∧
    (sync_to_platform 2 envW "rest_1" "doordash" adapterOkW true).1 =
      { success := true, platform := "doordash", item_count := 1,
        error_message := none } ∧
    (sync_to_platform 2 envW "rest_1" "doordash" adapterOkW true).2.writes =
      [({ restaurant_id := "rest_1", platform := "doordash",
          status := SyncStatusEnum.completed, last_sync_time := some 7,
          item_count := some 1, external_menu_id := none }, true)] :=
  ⟨rfl,
   sync_success_persists_completed_status 2 envW "rest_1" "doordash" adapterOkW true
     [itemW] [catW] () rfl rfl (Or.inl rfl)⟩

/-- C2: once the publish step is reached, `publish_menu` is invoked
exactly once when `retry` is false; when `retry` is true and the first
attempt fails, it is invoked exactly once more (two invocations, never
more) after sleeping the configured delay, and if both attempts fail
the single persisted `SyncStatus` is `failed`. -/
theorem publish_retry_policy {F : Type} (delay : Nat) (env : SyncEnv F)
    (rid p : String) (adapter : AdapterSpec F)
    (items : List MenuItem) (cats : List Category) (f : F)
    (hmenu : env.menu_data = some (items, cats))
    (hformat : adapter.format_menu items cats = some f) :
    (sync_to_platform delay env rid p adapter false).2.publish_calls = 1 ∧
    (adapter.publish_menu 0 rid f = false →
      (sync_to_platform delay env rid p adapter true).2.publish_calls = 2 ∧
      (sync_to_platform delay env rid p adapter true).2.slept = [delay] ∧
      (adapter.publish_menu 1 rid f = false →
        (sync_to_platform delay env rid p adapter true).2.writes.map
          (fun w => w.1.status) = [SyncStatusEnum.failed])) := by
  refine ⟨?_, fun h0 => ?_⟩
  · cases hb : adapter.publish_menu 0 rid f <;>
      simp [sync_to_platform, hmenu, hformat, hb]
  · cases hb : adapter.publish_menu 1 rid f <;>
      simp [sync_to_platform, hmenu, hformat, h0, hb, save_failed_status]

/-- C2 witness: an always-failing publisher is invoked once without
retry and twice with retry, with a `failed` status persisted. -/
theorem publish_retry_policy_witness :
    (sync_to_platform 2 envW "rest_1" "doordash" adapterFailW false).2.publish_calls = 1 ∧
    (sync_to_platform 2 envW "rest_1" "doordash" adapterFailW true).2.publish_calls = 2 ∧
    (sync_to_platform 2 envW "rest_1" "doordash" adapterFailW true).2.slept = [2] ∧
    (sync_to_platform 2 envW "rest_1" "doordash" adapterFailW true).2.writes.map
      (fun w => w.1.status) = [SyncStatusEnum.failed] :=
  have h := publish_retry_policy 2 envW "rest_1" "doordash" adapterFailW
    [itemW] [catW] () rfl rfl
  ⟨h.1, (h.2 rfl).1, (h.2 rfl).2.1, (h.2 rfl).2.2 rfl⟩

/-- C3: when the menu fetch signals absence, `sync_to_platform` writes
one `failed` `SyncStatus` with item count 0, returns an unsuccessful
`SyncResult` with item count 0 and a descriptive message, and never
invokes `format_menu` or `publish_menu`; when the fetch succeeds but
`format_menu` returns none, the written status and the returned result
carry the fetched item count (not zero) and `publish_menu` is never
invoked. -/
theorem fetch_and_format_failure_handling {F : Type} (delay : Nat) (env : SyncEnv F)
    (rid p : String) (adapter : AdapterSpec F) (retry : Bool) :
    (env.menu_data = none →
      (sync_to_platform delay env rid p adapter retry).1 =
        { success := false, platform := p, item_count := 0,
          error_message :=
            some ("Failed to fetch menu data for restaurant " ++ rid) } ∧
      (sync_to_platform delay env rid p adapter retry).2.writes =
        [({ restaurant_id := rid, platform := p, status := SyncStatusEnum.failed,
            last_sync_time := some env.now, item_count := some 0,
            external_menu_id := none }, env.save_ok)] ∧
      (sync_to_platform delay env rid p adapter retry).2.format_calls = 0 ∧
      (sync_to_platform delay env rid p adapter retry).2.publish_calls = 0) ∧
    (∀ (items : List MenuItem) (cats : List Category),
      env.menu_data = some (items, cats) →
      adapter.format_menu items cats = none →
      (sync_to_platform delay env rid p adapter retry).1 =
        { success := false, platform := p, item_count := items.length,
          error_message := some ("Failed to format menu for platform " ++ p) } ∧
      (sync_to_platform delay env rid p adapter retry).2.writes =
        [({ restaurant_id := rid, platform := p, status := SyncStatusEnum.failed,
            last_sync_time := some env.now, item_count := some (items.length : Int),
            external_menu_id := none }, env.save_ok)] ∧
      (sync_to_platform delay env rid p adapter retry).2.publish_calls = 0) := by
  constructor
  · intro hmenu
    refine ⟨?_, ?_, ?_, ?_⟩ <;> simp [sync_to_platform, hmenu, save_failed_status]
  · intro items cats hmenu hformat
    refine ⟨?_, ?_, ?_⟩ <;> simp [sync_to_platform, hmenu, hformat, save_failed_status]

/-- C3 witness: a failed fetch and a failed format evaluated on
concrete inputs. -/
theorem fetch_and_format_failure_handling_witness :
    ((sync_to_platform 2 envNoneW "rest_1" "doordash" adapterOkW true).1 =
      { success := false, platform := "doordash", item_count := 0,
        error_message :=
          some "Failed to fetch menu data for restaurant rest_1" } ∧
    (sync_to_platform 2 envNoneW "rest_1" "doordash" adapterOkW true).2.writes =
      [({ restaurant_id := "rest_1", platform := "doordash",
          status := SyncStatusEnum.failed, last_sync_time := some 7,
          item_count := some 0, external_menu_id := none }, true)] ∧
    (sync_to_platform 2 envNoneW "rest_1" "doordash" adapterOkW true).2.format_calls = 0 ∧
    (sync_to_platform 2 envNoneW "rest_1" "doordash" adapterOkW true).2.publish_calls = 0) ∧
    ((sync_to_platform 2 envW "rest_1" "doordash" adapterNoFormatW true).1 =
      { success := false, platform := "doordash", item_count := 1,
        error_message := some "Failed to format menu for platform doordash" } ∧
    (sync_to_platform 2 envW "rest_1" "doordash" adapterNoFormatW true).2.writes =
      [({ restaurant_id := "rest_1", platform := "doordash",
          status := SyncStatusEnum.failed, last_sync_time := some 7,
          item_count := some 1, external_menu_id := none }, true)] ∧
    (sync_to_platform 2 envW "rest_1" "doordash" adapterNoFormatW true).2.publish_calls = 0) :=
  ⟨(fetch_and_format_failure_handling 2 envNoneW "rest_1" "doordash" adapterOkW true).1 rfl,
   (fetch_and_format_failure_handling 2 envW "rest_1" "doordash" adapterNoFormatW true).2
     [itemW] [catW] rfl rfl⟩

/-- C5: the returned `SyncResult` is independent of the Status Store's
write outcome — the same call with the store write succeeding and with
it failing returns the same result (the orchestrator never inspects
`save_status`'s return value, and the repository converts `ClientError`
to `False` instead of raising). -/
theorem sync_result_independent_of_status_write {F : Type} (delay : Nat) (env : SyncEnv F)
    (rid p : String) (adapter : AdapterSpec F) (retry : Bool) (b b' : Bool) :
    (sync_to_platform delay { env with save_ok := b } rid p adapter retry).1 =
    (sync_to_platform delay { env with save_ok := b' } rid p adapter retry).1 := by
  obtain ⟨md, now, ok⟩ := env
  cases md with
  | none => rfl
  | some pr =>
    obtain ⟨items, cats⟩ := pr
    cases hf : adapter.format_menu items cats with
    | none => simp [sync_to_platform, hf]
    | some f =>
      cases hp0 : adapter.publish_menu 0 rid f <;> cases retry <;>
        cases hp1 : adapter.publish_menu 1 rid f <;>
          simp [sync_to_platform, hf, hp0, hp1]

/-- C10: whenever `sync_to_platform` ends in failure (fetch failure,
format failure, or exhausted publish attempts), the single `SyncStatus`
it writes is `failed` and carries `last_sync_time` equal to the current
time: the stored timestamp records the last attempt, not only the last
success. -/
theorem failed_status_carries_attempt_time {F : Type} (delay : Nat) (env : SyncEnv F)
    (rid p : String) (adapter : AdapterSpec F) (retry : Bool)
    (hfail : (sync_to_platform delay env rid p adapter retry).1.success = false) :
    (sync_to_platform delay env rid p adapter retry).2.writes.map
      (fun w => (w.1.status, w.1.last_sync_time)) =
      [(SyncStatusEnum.failed, some env.now)] := by
  obtain ⟨md, now, ok⟩ := env
  cases md with
  | none => simp [sync_to_platform, save_failed_status]
  | some pr =>
    obtain ⟨items, cats⟩ := pr
    cases hf : adapter.format_menu items cats with
    | none => simp [sync_to_platform, hf, save_failed_status]
    | some f =>
      cases hp0 : adapter.publish_menu 0 rid f with
      | true => simp [sync_to_platform, hf, hp0] at hfail
      | false =>
        cases retry with
        | false => simp [sync_to_platform, hf, hp0, save_failed_status]
        | true =>
          cases hp1 : adapter.publish_menu 1 rid f with
          | true => simp [sync_to_platform, hf, hp0, hp1] at hfail
          | false => simp [sync_to_platform, hf, hp0, hp1, save_failed_status]

/-- C10 witness: the failed-fetch run at time 7 writes a `failed`
status stamped with time 7. -/
theorem failed_status_carries_attempt_time_witness :
    (sync_to_platform 2 envNoneW "rest_1" "doordash" adapterOkW true).1.success = false ∧
    (sync_to_platform 2 envNoneW "rest_1" "doordash" adapterOkW true).2.writes.map
      (fun w => (w.1.status, w.1.last_sync_time)) =
      [(SyncStatusEnum.failed, some 7)] :=
  ⟨rfl, failed_status_carries_attempt_time 2 envNoneW "rest_1" "doordash" adapterOkW true rfl⟩

/-- C6: `sync_to_multiple_platforms` over N adapters returns exactly N
results (one per adapter, available only after every per-platform task
finishes under `asyncio.gather`), each equal to the result of running
`sync_to_platform` for that platform alone; consequently, when exactly
one platform's standalone run fails, exactly one returned result has
`success = false` and the others are the unchanged standalone
results. -/
theorem fan_out_results_match_standalone {F : Type} (delay : Nat)
    (envf : String → SyncEnv F) (rid : String)
    (pas : List (String × AdapterSpec F)) (retry : Bool) :
    sync_to_multiple_platforms delay envf rid pas retry =
      pas.map (fun pa => (sync_to_platform delay (envf pa.1) rid pa.1 pa.2 retry).1) ∧
    (sync_to_multiple_platforms delay envf rid pas retry).length = pas.length ∧
    (pas.countP
        (fun pa => !(sync_to_platform delay (envf pa.1) rid pa.1 pa.2 retry).1.success) = 1 →
      (sync_to_multiple_platforms delay envf rid pas retry).countP
        (fun r => !r.success) = 1) := by
  have hmap : sync_to_multiple_platforms delay envf rid pas retry =
      pas.map (fun pa => (sync_to_platform delay (envf pa.1) rid pa.1 pa.2 retry).1) := by
    simp [sync_to_multiple_platforms, List.map_map, Function.comp]
  refine ⟨hmap, ?_, ?_⟩
  · rw [hmap, List.length_map]
  · intro h
    rw [hmap, List.countP_map]
    exact h

/-- C6 witness: two platforms of which exactly one fails. -/
theorem fan_out_results_match_standalone_witness :
    sync_to_multiple_platforms 2 (fun _ => envW) "rest_1"
        [("doordash", adapterOkW), ("ubereats", adapterFailW)] true =
      [(sync_to_platform 2 envW "rest_1" "doordash" adapterOkW true).1,
       (sync_to_platform 2 envW "rest_1" "ubereats" adapterFailW true).1] ∧
    (sync_to_multiple_platforms 2 (fun _ => envW) "rest_1"
        [("doordash", adapterOkW), ("ubereats", adapterFailW)] true).length = 2 ∧
    (sync_to_multiple_platforms 2 (fun _ => envW) "rest_1"
        [("doordash", adapterOkW), ("ubereats", adapterFailW)] true).countP
      (fun r => !r.success) = 1 :=
  have h := fan_out_results_match_standalone 2 (fun _ => envW) "rest_1"
    [("doordash", adapterOkW), ("ubereats", adapterFailW)] true
  ⟨h.1, h.2.1, h.2.2 (by decide)⟩

/-- C8: `record_sync_error` never raises; it persists one new
`SyncError` with `retry_count = 0`, id `err_` plus the first 12 hex
characters of the fresh uuid, and the current creation time; the menu
snapshot is absent unless both collections are supplied, in which case
it is the serialized snapshot whose item price fields are decimal
strings; and the call returns the error id exactly when the store write
succeeds.  Generating distinct uuid prefixes yields distinct error
ids. -/
theorem record_sync_error_spec :
    (∀ (env : ErrEnv) (rid p det : String) (mi : Option (List MenuItem))
        (mc : Option (List Category)),
      record_sync_error env rid p det mi mc =
        some ((if env.save_ok then some ("err_" ++ strTake env.uuid_hex 12) else none),
          [{ error_id := "err_" ++ strTake env.uuid_hex 12, created_at := env.now,
             restaurant_id := rid, platform := p, error_details := det,
             menu_snapshot :=
               match mi, mc with
               | some items, some cats => some (create_menu_snapshot items cats)
               | _, _ => none,
             retry_count := 0 }])) ∧
    (∀ (items : List MenuItem) (cats : List Category),
      (create_menu_snapshot items cats).items = items.map serialize_menu_item) ∧
    (∀ item : MenuItem,
      (serialize_menu_item item).price = JValue.str (Decimal.str item.price)) ∧
    (∀ h₁ h₂ : String, strTake h₁ 12 ≠ strTake h₂ 12 →
      "err_" ++ strTake h₁ 12 ≠ "err_" ++ strTake h₂ 12) := by
  refine ⟨?_, fun _ _ => rfl, fun _ => rfl, ?_⟩
  · intro env rid p det mi mc
    cases mi <;> cases mc <;> rfl
  · intro h₁ h₂ hne heq
    apply hne
    have hdata := congrArg String.data heq
    simp only [String.data_append] at hdata
    have := List.append_cancel_left hdata
    cases hs₁ : strTake h₁ 12
    cases hs₂ : strTake h₂ 12
    rw [hs₁, hs₂] at this
    simpa using congrArg String.mk this

/-- Environment for the error-recorder witness. -/
def envErrW : ErrEnv :=
  { uuid_hex := "abcdef0123456789abcdef012345", now := 7, save_ok := true }

/-- C8 witness: recording an error with a menu snapshot at a concrete
uuid, time and store outcome. -/
theorem record_sync_error_spec_witness :
    record_sync_error envErrW "rest_1" "doordash" "publish failed"
        (some [itemW]) (some [catW]) =
      some (some "err_abcdef012345",
        [{ error_id := "err_abcdef012345", created_at := 7,
           restaurant_id := "rest_1", platform := "doordash",
           error_details := "publish failed",
           menu_snapshot := some (create_menu_snapshot [itemW] [catW]),
           retry_count := 0 }]) ∧
    (serialize_menu_item itemW).price = JValue.str "12.99" ∧
    "err_" ++ strTake "aaaabbbbcccc" 12 ≠ "err_" ++ strTake "aaaabbbbdddd" 12 :=
  ⟨record_sync_error_spec.1 envErrW "rest_1" "doordash" "publish failed"
      (some [itemW]) (some [catW]),
   record_sync_error_spec.2.2.1 itemW,
   record_sync_error_spec.2.2.2 "aaaabbbbcccc" "aaaabbbbdddd" (by decide)⟩

/-- C4 (code evaluation): every call to the service's
`increment_retry_count` raises `TypeError`, because the source invokes
`SyncErrorRepository.get_error` with one argument against a
two-parameter signature (and would invoke `update_retry_count` with two
arguments against a three-parameter signature); it therefore never
returns `False` for a missing error as specified. -/
theorem increment_retry_count_raises_type_error (store : ErrorStore) (error_id : String) :
    increment_retry_count store error_id = Except.error PyEx.typeError := rfl

end RestaurantSync
